import Mathlib

/-!
Shallow embedding of the skydock daemon (src/main.go) and proofs of the
spec claims about it.  External calls (docker fetch, plugin evaluation,
skydns Add/Update/Delete) are modelled by oracle arguments giving each
call's result; `none` models a nil Go error, `some e` a non-nil one.
-/

namespace Skydock

/-- Go error values that the code distinguishes by identity:
`docker.ErrImageNotTagged`, `client.ErrConflictingUUID`, and any other
error (carrying its message). -/
inductive GoErr
  | imageNotTagged
  | conflictingUUID
  | other (msg : String)
deriving DecidableEq

/-- The string produced when an error value is formatted with `%s`. -/
def errMsg : GoErr → String
  | .imageNotTagged => "image not tagged"
  | .conflictingUUID => "conflicting uuid"
  | .other m => m

/-- One line emitted through the slog logger, tagged with its level. -/
inductive LogEntry
  | debug (msg : String)
  | info (msg : String)
  | error (msg : String)
deriving DecidableEq

/-- A call issued to the skydns registry client. -/
inductive RegistryOp
  | add (uuid : String)
  | update (uuid : String) (ttl : Int)
  | delete (uuid : String)
deriving DecidableEq

/-- Observable effects of one coordinator routine: whether
`plugins.createService` ran, the registry calls made in order, whether
`go heartbeat(uuid)` was spawned, whether `fatal` (os.Exit(1)) fired,
the routine's returned error, and the log lines it wrote. -/
structure Effects where
  policyEvaluated : Bool
  ops : List RegistryOp
  heartbeatStarted : Bool
  fatalExit : Bool
  ret : Option GoErr
  logs : List LogEntry
deriving DecidableEq

/-- Modelled from the spec: `utils.Truncate` lives in the `utils` package,
which is not among the provided sources; the spec defines the UUID as the
first 12 characters of the container id. -/
def truncate (id : String) : String := id.take 12

/-- Embeds `sendService` (src/main.go lines 146-159): log, call
`skydns.Add`; on `ErrConflictingUUID` log, call `updateService`
(discarding its result) and fall through; on any other error return it;
otherwise spawn the heartbeat and return nil.  `addErr` and `updErr` give
the results of the `Add` and `Update` calls. -/
def sendService (addErr updErr : Option GoErr) (uuid serviceName : String)
    (ttl : Int) : Effects :=
  let l0 := [LogEntry.info ("adding " ++ uuid ++ " (" ++ serviceName ++ ") to skydns")]
  match addErr with
  | none => ⟨false, [.add uuid], true, false, none, l0⟩
  | some e =>
      if e = .conflictingUUID then
        ⟨false, [.add uuid, .update uuid ttl], true, false, none,
          l0 ++ [LogEntry.info ("service already exists for " ++ uuid ++ ". Resetting ttl.")]⟩
      else
        ⟨false, [.add uuid], false, false, some e, l0⟩

/-- Embeds `addService` (src/main.go lines 166-186): fetch the container
(`fetchErr` is the fetch result); on `ErrImageNotTagged` return nil, on
another fetch error return it; then run the plugin (`pluginErr`), fatal
on plugin error; finally delegate to `sendService`. -/
def addService (fetchErr pluginErr : Option GoErr) (serviceName : String)
    (addErr updErr : Option GoErr) (uuid : String) (ttl : Int) : Effects :=
  match fetchErr with
  | some e =>
      if e = .imageNotTagged then ⟨false, [], false, false, none, []⟩
      else ⟨false, [], false, false, some e, []⟩
  | none =>
      match pluginErr with
      | some _ => ⟨true, [], false, true, none, []⟩
      | none =>
          let r := sendService addErr updErr uuid serviceName ttl
          ⟨true, r.ops, r.heartbeatStarted, r.fatalExit, r.ret, r.logs⟩

/-- Embeds `removeService` (src/main.go lines 161-164): log and call
`skydns.Delete`, returning its result (`delErr`). -/
def removeService (delErr : Option GoErr) (uuid : String) : Effects :=
  ⟨false, [.delete uuid], false, false, delErr,
    [LogEntry.info ("removing " ++ uuid ++ " from skydns")]⟩

/-- A docker lifecycle event as consumed by `eventHandler`. -/
structure Event where
  status : String
  containerId : String
  image : String
deriving DecidableEq

/-- Embeds one iteration of `eventHandler` (src/main.go lines 192-210):
log the event at DEBUG, truncate the container id, then dispatch on the
status: die/stop/kill remove, start/restart add (logging any returned
error at ERROR), anything else is ignored. -/
def handleEvent (fetchErr pluginErr : Option GoErr) (serviceName : String)
    (addErr updErr delErr : Option GoErr) (ev : Event) (ttl : Int) : Effects :=
  let dbg := [LogEntry.debug
    ("received event (" ++ ev.status ++ ") " ++ ev.containerId ++ " " ++ ev.image)]
  let uuid := truncate ev.containerId
  if ev.status = "die" ∨ ev.status = "stop" ∨ ev.status = "kill" then
    let r := removeService delErr uuid
    let errLog := match r.ret with
      | some e => [LogEntry.error ("error removing " ++ uuid ++ " from skydns: " ++ errMsg e)]
      | none => []
    ⟨r.policyEvaluated, r.ops, r.heartbeatStarted, r.fatalExit, none, dbg ++ r.logs ++ errLog⟩
  else if ev.status = "start" ∨ ev.status = "restart" then
    let r := addService fetchErr pluginErr serviceName addErr updErr uuid ttl
    let errLog := match r.ret with
      | some e => [LogEntry.error ("error adding " ++ uuid ++ " to skydns: " ++ errMsg e)]
      | none => []
    ⟨r.policyEvaluated, r.ops, r.heartbeatStarted, r.fatalExit, none, dbg ++ r.logs ++ errLog⟩
  else
    ⟨false, [], false, false, none, dbg⟩

/-- Embeds the tick loop of `heartbeat` (src/main.go lines 93-112), one
recursive step per tick, with `fuel` bounding the number of ticks (the Go
loop is unbounded; `none` models a loop still running when fuel is
spent).  `updErr k` is the result of the k-th `updateService` call.  Each
iteration: abort with an ERROR line if `errorCount > 10`; log at INFO
when `beat >= 30`; call Update, and on a non-nil result increment
`errorCount`, log the error at ERROR, and leave the loop (the source's
`break`).  Returns the number of Update calls made and the log lines. -/
def heartbeatLoop (beat : Int) (uuid : String) (updErr : Nat → Option GoErr) :
    Nat → Nat → Nat → List LogEntry → Option (Nat × List LogEntry)
  | 0, _, _, _ => none
  | fuel + 1, errorCount, calls, logs =>
      if errorCount > 10 then
        some (calls, logs ++ [LogEntry.error ("aborting heartbeat for " ++ uuid ++ " after 10 errors")])
      else
        let logs := if beat ≥ 30 then logs ++ [LogEntry.info ("updating ttl for " ++ uuid)] else logs
        match updErr calls with
        | some e => some (calls + 1, logs ++ [LogEntry.error (errMsg e)])
        | none => heartbeatLoop beat uuid updErr fuel errorCount (calls + 1) logs

/-- Embeds `heartbeat` (src/main.go lines 78-113).  The LiveSet (the
`running` map keyed by UUID) is threaded explicitly: if `uuid` is already
a member, return at once (no tick, no Update); otherwise insert it, run
the tick loop, and on exit delete it (the deferred cleanup).  Returns the
final LiveSet, the number of Update calls, and the log lines; `none`
models the loop still running after `fuel` ticks. -/
def heartbeat (beat : Int) (updErr : Nat → Option GoErr) (fuel : Nat)
    (uuid : String) (running : Finset String) :
    Option (Finset String × Nat × List LogEntry) :=
  if uuid ∈ running then some (running, 0, [])
  else
    match heartbeatLoop beat uuid updErr fuel 0 0 [] with
    | none => none
    | some (calls, logs) => some ((insert uuid running).erase uuid, calls, logs)

/-- The mutable flag settings read by `validateSettings`. -/
structure Settings where
  beat : Int
  ttl : Int
  skydnsUrl : String
  skydnsContainerName : String
  domain : String
deriving DecidableEq

/-- The two conditions on which `validateSettings` calls `fatal`. -/
inductive FatalErr
  | conflictingFlags
  | missingDomain
deriving DecidableEq

/-- Embeds the Beat derivation of `validateSettings` (src/main.go lines
57-59): an unset interval (below 1) becomes `ttl - ttl/4` with Go's
truncated integer division. -/
def deriveBeat (beat ttl : Int) : Int :=
  if beat < 1 then ttl - Int.tdiv ttl 4 else beat

/-- Embeds `validateSettings` (src/main.go lines 56-72): derive the beat,
reject a config naming both a skydns URL and a container name, fall back
to the URL built from `SKYDNS_PORT_8080_TCP_ADDR` (`envAddr`, empty when
the variable is unset) when both are empty, and reject an empty domain.
`fatal` is modelled as `Except.error`. -/
def validateSettings (s : Settings) (envAddr : String) : Except FatalErr Settings :=
  let beat := deriveBeat s.beat s.ttl
  if s.skydnsUrl ≠ "" ∧ s.skydnsContainerName ≠ "" then
    Except.error FatalErr.conflictingFlags
  else
    let url := if s.skydnsUrl = "" ∧ s.skydnsContainerName = ""
      then "http://" ++ envAddr ++ ":8080" else s.skydnsUrl
    if s.domain = "" then Except.error FatalErr.missingDomain
    else Except.ok (Settings.mk beat s.ttl url s.skydnsContainerName s.domain)

/-- The bootstrap steps of `main` (src/slog/log.go lines 445-500),
`restore` being the step the commented-out `restoreContainers()` call
would have been. -/
inductive BootStep
  | setupLogger
  | initParams
  | validateSettings
  | newRuntime
  | newDockerClient
  | fetchSkydnsContainer
  | newSkydnsClient
  | restore
  | getEvents
  | spawnWorkers
  | fatalExit
deriving DecidableEq

/-- Which bootstrap calls fail, and whether a skydns container name was
configured (the branch at src/slog/log.go line 467). -/
structure BootEnv where
  validateErr : Bool
  runtimeErr : Bool
  dockerErr : Bool
  skydnsContainerName : String
  fetchSkydnsErr : Bool
  skydnsClientErr : Bool
deriving DecidableEq

/-- Tail of the bootstrap from the skydns-client construction on
(src/slog/log.go lines 478-495): build the client, then — the
`restoreContainers()` call at lines 483-487 being commented out —
subscribe with `GetEvents` and spawn the worker pool directly. -/
def bootTail (env : BootEnv) : List BootStep :=
  [BootStep.newSkydnsClient] ++
    (if env.skydnsClientErr then [BootStep.fatalExit] else
      [BootStep.getEvents, BootStep.spawnWorkers])

/-- Embeds the bootstrap sequence of `main` (src/slog/log.go lines
445-500) as the ordered list of steps executed; a failing step is
followed by `fatalExit` and nothing further (setupLogger always returns
nil, src/slog/log.go lines 295-300). -/
def mainTrace (env : BootEnv) : List BootStep :=
  [BootStep.setupLogger, BootStep.initParams, BootStep.validateSettings] ++
    (if env.validateErr then [BootStep.fatalExit] else
      [BootStep.newRuntime] ++
        (if env.runtimeErr then [BootStep.fatalExit] else
          [BootStep.newDockerClient] ++
            (if env.dockerErr then [BootStep.fatalExit] else
              (if env.skydnsContainerName ≠ "" then
                [BootStep.fetchSkydnsContainer] ++
                  (if env.fetchSkydnsErr then [BootStep.fatalExit] else bootTail env)
              else bootTail env))))

/-- C1: evaluated on a UUID whose Update calls all fail (Beat=45, TTL
defaulted), the heartbeat makes exactly 1 Update call — not 11 — because
the failure branch ends in `break` (src/main.go line 110), which leaves
the tick loop at the first error; the `errorCount > 10` abort branch and
its "aborting heartbeat" ERROR line are unreachable.  The UUID is still
removed from the LiveSet and the Update error is logged at ERROR. -/
theorem heartbeat_one_failure_stops_loop :
    heartbeat 45 (fun _ => some (GoErr.other "update failed")) 12 "abc" ∅ =
      some (∅, 1, [LogEntry.info "updating ttl for abc",
                   LogEntry.error "update failed"]) ∧
    (1 : Nat) ≠ 11 :=
  ⟨by decide, by decide⟩

/-- C2: a heartbeat started for a UUID already in the `running` map
returns immediately with no tick, no Update call and no log line, and
leaves the map unchanged; a heartbeat for a fresh UUID inserts it on
entry and deletes it on exit, so whenever the loop returns, the map is
exactly what it was before the call. -/
theorem heartbeat_single_writer (beat : Int) (updErr : Nat → Option GoErr) (fuel : Nat)
    (uuid : String) (running : Finset String) :
    (uuid ∈ running → heartbeat beat updErr fuel uuid running = some (running, 0, [])) ∧
    (uuid ∉ running → ∀ r : Finset String × Nat × List LogEntry,
      heartbeat beat updErr fuel uuid running = some r → r.1 = running) := by
  constructor
  · intro h
    simp [heartbeat, h]
  · intro h r hr
    rw [heartbeat, if_neg h] at hr
    cases hloop : heartbeatLoop beat uuid updErr fuel 0 0 [] with
    | none =>
        rw [hloop] at hr
        exact Option.noConfusion hr
    | some p =>
        obtain ⟨calls, logs⟩ := p
        rw [hloop] at hr
        injection hr with h2
        rw [← h2]
        exact Finset.erase_insert h

theorem heartbeat_single_writer_witness :
    heartbeat 45 (fun _ => none) 3 "a" {"a"} = some ({"a"}, 0, []) ∧
    (({"a"} : Finset String), 1,
      [LogEntry.info "updating ttl for b", LogEntry.error "e"]).1 = {"a"} :=
  ⟨(heartbeat_single_writer 45 (fun _ => none) 3 "a" {"a"}).1 (by decide),
   (heartbeat_single_writer 45 (fun _ => some (GoErr.other "e")) 3 "b" {"a"}).2 (by decide)
     ({"a"}, 1, [LogEntry.info "updating ttl for b", LogEntry.error "e"]) (by decide)⟩

/-- C3: when Add reports `ErrConflictingUUID`, `sendService` calls
Update(uuid, ttl), starts the heartbeat and returns nil; on any other Add
error it returns that error, makes no Update call and starts no
heartbeat. -/
theorem sendService_conflict_vs_other (updErr : Option GoErr) (uuid sn : String)
    (ttl : Int) (e : GoErr) (h : e ≠ GoErr.conflictingUUID) :
    sendService (some GoErr.conflictingUUID) updErr uuid sn ttl =
      ⟨false, [RegistryOp.add uuid, RegistryOp.update uuid ttl], true, false, none,
        [LogEntry.info ("adding " ++ uuid ++ " (" ++ sn ++ ") to skydns"),
         LogEntry.info ("service already exists for " ++ uuid ++ ". Resetting ttl.")]⟩ ∧
    sendService (some e) updErr uuid sn ttl =
      ⟨false, [RegistryOp.add uuid], false, false, some e,
        [LogEntry.info ("adding " ++ uuid ++ " (" ++ sn ++ ") to skydns")]⟩ := by
  constructor
  · simp [sendService]
  · simp [sendService, h]

theorem sendService_conflict_vs_other_witness :
    sendService (some GoErr.conflictingUUID) none "u" "web" 60 =
      ⟨false, [RegistryOp.add "u", RegistryOp.update "u" 60], true, false, none,
        [LogEntry.info "adding u (web) to skydns",
         LogEntry.info "service already exists for u. Resetting ttl."]⟩ ∧
    sendService (some (GoErr.other "boom")) none "u" "web" 60 =
      ⟨false, [RegistryOp.add "u"], false, false, some (GoErr.other "boom"),
        [LogEntry.info "adding u (web) to skydns"]⟩ :=
  sendService_conflict_vs_other none "u" "web" 60 (GoErr.other "boom") (by decide)

/-- C4: refuted by the cited bootstrap — the `restoreContainers()` call
at src/slog/log.go lines 483-487 is commented out, so no execution path
of `main` contains a restore step, yet a fully successful bootstrap
subscribes to the event stream and spawns the worker pool: events are
consumed without the initial container set ever being restored. -/
theorem events_subscribed_without_restore (env : BootEnv) :
    BootStep.restore ∉ mainTrace env ∧
    mainTrace (BootEnv.mk false false false "" false false) =
      [BootStep.setupLogger, BootStep.initParams, BootStep.validateSettings,
       BootStep.newRuntime, BootStep.newDockerClient, BootStep.newSkydnsClient,
       BootStep.getEvents, BootStep.spawnWorkers] := by
  constructor
  · obtain ⟨v, r, d, name, f, s⟩ := env
    by_cases hn : name = "" <;>
      cases v <;> cases r <;> cases d <;> cases f <;> cases s <;>
      simp_all [mainTrace, bootTail]
  · decide

/-- C5: a start or restart event whose container fetch yields
`ErrImageNotTagged` makes `addService` return nil with no registry call,
no policy evaluation, no heartbeat and no log line of its own; the event
handler's only output is the DEBUG receipt line. -/
theorem addService_skips_untagged (pe ae ue de : Option GoErr) (sn cid img : String)
    (uuid : String) (ttl : Int) (st : String) (h : st = "start" ∨ st = "restart") :
    addService (some GoErr.imageNotTagged) pe sn ae ue uuid ttl =
      ⟨false, [], false, false, none, []⟩ ∧
    handleEvent (some GoErr.imageNotTagged) pe sn ae ue de (Event.mk st cid img) ttl =
      ⟨false, [], false, false, none,
        [LogEntry.debug ("received event (" ++ st ++ ") " ++ cid ++ " " ++ img)]⟩ := by
  constructor
  · simp [addService]
  · rcases h with rfl | rfl <;> simp [handleEvent, addService]

theorem addService_skips_untagged_witness :
    addService (some GoErr.imageNotTagged) none "web" none none "u" 60 =
      ⟨false, [], false, false, none, []⟩ ∧
    handleEvent (some GoErr.imageNotTagged) none "web" none none none
        (Event.mk "start" "c" "raw") 60 =
      ⟨false, [], false, false, none, [LogEntry.debug "received event (start) c raw"]⟩ :=
  addService_skips_untagged none none none none "web" "c" "raw" "u" 60 "start" (Or.inl rfl)

/-- C6: `validateSettings` derives an unset Beat (below 1) as
`ttl - ttl/4` with truncated integer division, leaves a configured
Beat ≥ 1 unchanged, maps Beat=0, TTL=60 to 45, and every successful
validation carries exactly this derived Beat in its result. -/
theorem validateSettings_derives_beat (beat ttl : Int) :
    (beat < 1 → deriveBeat beat ttl = ttl - Int.tdiv ttl 4) ∧
    (1 ≤ beat → deriveBeat beat ttl = beat) ∧
    deriveBeat 0 60 = 45 ∧
    (∀ s : Settings, ∀ envAddr : String, ∀ out : Settings,
      validateSettings s envAddr = Except.ok out →
        out.beat = deriveBeat s.beat s.ttl) := by
  refine ⟨?_, ?_, by decide, ?_⟩
  · intro h
    simp [deriveBeat, h]
  · intro h
    simp [deriveBeat, not_lt.mpr h]
  · intro s envAddr out hok
    simp only [validateSettings] at hok
    split at hok
    · cases hok
    · split at hok
      · cases hok
      · cases hok
        rfl

theorem validateSettings_derives_beat_witness :
    deriveBeat 0 60 = 60 - Int.tdiv 60 4 ∧
    deriveBeat 5 60 = 5 ∧
    deriveBeat 0 60 = 45 ∧
    (Settings.mk 45 60 ("http://" ++ "" ++ ":8080") "" "d").beat = deriveBeat 0 60 :=
  ⟨(validateSettings_derives_beat 0 60).1 (by decide),
   (validateSettings_derives_beat 5 60).2.1 (by decide),
   (validateSettings_derives_beat 0 60).2.2.1,
   (validateSettings_derives_beat 0 60).2.2.2 (Settings.mk 0 60 "" "" "d") ""
     (Settings.mk 45 60 ("http://" ++ "" ++ ":8080") "" "d") (by rfl)⟩

/-- C7: a die, stop or kill event makes the handler call Delete on the
truncated UUID and nothing else: no Add or Update, no policy evaluation,
no heartbeat task spawned (the only code that mutates the `running` map
lives inside `heartbeat`), and the outcome — the removal INFO line plus,
on a Delete error, an ERROR line — is logged. -/
theorem handleEvent_remove_path (fe pe : Option GoErr) (sn : String)
    (ae ue de : Option GoErr) (st cid img : String) (ttl : Int)
    (h : st = "die" ∨ st = "stop" ∨ st = "kill") :
    handleEvent fe pe sn ae ue de (Event.mk st cid img) ttl =
      ⟨false, [RegistryOp.delete (truncate cid)], false, false, none,
        [LogEntry.debug ("received event (" ++ st ++ ") " ++ cid ++ " " ++ img),
         LogEntry.info ("removing " ++ truncate cid ++ " from skydns")] ++
        (match de with
         | some e => [LogEntry.error
             ("error removing " ++ truncate cid ++ " from skydns: " ++ errMsg e)]
         | none => [])⟩ := by
  rcases h with rfl | rfl | rfl <;> cases de <;> simp [handleEvent, removeService]

theorem handleEvent_remove_path_witness :
    handleEvent none none "web" none none (some (GoErr.other "boom"))
        (Event.mk "stop" "c" "alpine:3") 60 =
      ⟨false, [RegistryOp.delete (truncate "c")], false, false, none,
        [LogEntry.debug "received event (stop) c alpine:3",
         LogEntry.info ("removing " ++ truncate "c" ++ " from skydns")] ++
        [LogEntry.error
          ("error removing " ++ truncate "c" ++ " from skydns: " ++ errMsg (GoErr.other "boom"))]⟩ :=
  handleEvent_remove_path none none "web" none none (some (GoErr.other "boom"))
    "stop" "c" "alpine:3" 60 (Or.inr (Or.inl rfl))

/-- C8: an event whose status is none of start, restart, die, stop, kill
is consumed with no registry operation, no policy evaluation, no
heartbeat and no error: the handler only writes its DEBUG receipt
line. -/
theorem handleEvent_ignores_unknown (fe pe : Option GoErr) (sn : String)
    (ae ue de : Option GoErr) (st cid img : String) (ttl : Int)
    (h1 : st ≠ "die") (h2 : st ≠ "stop") (h3 : st ≠ "kill")
    (h4 : st ≠ "start") (h5 : st ≠ "restart") :
    handleEvent fe pe sn ae ue de (Event.mk st cid img) ttl =
      ⟨false, [], false, false, none,
        [LogEntry.debug ("received event (" ++ st ++ ") " ++ cid ++ " " ++ img)]⟩ := by
  simp [handleEvent, h1, h2, h3, h4, h5]

theorem handleEvent_ignores_unknown_witness :
    handleEvent none none "web" none none none (Event.mk "pause" "c" "alpine:3") 60 =
      ⟨false, [], false, false, none,
        [LogEntry.debug "received event (pause) c alpine:3"]⟩ :=
  handleEvent_ignores_unknown none none "web" none none none "pause" "c" "alpine:3" 60
    (by decide) (by decide) (by decide) (by decide) (by decide)

/-- C9: on the ConflictingUUID path the result of the follow-up Update is
discarded — `sendService`'s outcome is identical for any two Update
results, and it still records the Update call, starts the heartbeat and
returns nil. -/
theorem sendService_discards_update_result (u1 u2 : Option GoErr)
    (uuid sn : String) (ttl : Int) :
    sendService (some GoErr.conflictingUUID) u1 uuid sn ttl =
      sendService (some GoErr.conflictingUUID) u2 uuid sn ttl ∧
    (sendService (some GoErr.conflictingUUID) u1 uuid sn ttl).heartbeatStarted = true ∧
    (sendService (some GoErr.conflictingUUID) u1 uuid sn ttl).ret = none ∧
    RegistryOp.update uuid ttl ∈
      (sendService (some GoErr.conflictingUUID) u1 uuid sn ttl).ops := by
  refine ⟨rfl, ?_, ?_, ?_⟩ <;> simp [sendService]

/-- C10: with an empty registry URL, an empty registry container name and
the environment variable unset (empty), `validateSettings` does not
fail for any non-empty domain: it composes the URL as
`"http://" ++ "" ++ ":8080"` and succeeds. -/
theorem validateSettings_empty_fallback (beat ttl : Int) (dom : String)
    (h : dom ≠ "") :
    validateSettings (Settings.mk beat ttl "" "" dom) "" =
      Except.ok (Settings.mk (deriveBeat beat ttl) ttl
        ("http://" ++ "" ++ ":8080") "" dom) := by
  simp [validateSettings, h]

theorem validateSettings_empty_fallback_witness :
    validateSettings (Settings.mk 0 60 "" "" "d") "" =
      Except.ok (Settings.mk (deriveBeat 0 60) 60 ("http://" ++ "" ++ ":8080") "" "d") :=
  validateSettings_empty_fallback 0 60 "d" (by decide)

end Skydock
